import Mathlib

/-!
Shallow embedding of `cbopensource/driver/theatconnect.py` (the ThreatConnect
connector driver) and proofs about its indicator typing, configuration and
report-aggregation behaviour.

Conventions of the embedding:
* Python `int` is modelled as `ℤ` (or `ℕ` where the source value is a count or
  an id that is non-negative by construction), Python floats coming from the
  remote JSON (`threatAssessRating`) as `ℚ`.
* Python string operations (`strip`, `split`, `upper`, `readlines`) are
  re-implemented over `List Char` so that they compute by kernel reduction;
  they follow the Python semantics for the ASCII inputs the driver handles.
* Fallible code (`raise`) is modelled with `Except String`; the error strings
  name the Python exception raised.
* Python `dict` is modelled as an association list looked up with `alookup`
  (first binding wins, updates prepend), `set` as a duplicate-free list
  (`pySetAdd` is `set.add`).
* File I/O (`open`/`read` in `_read_filter_file`) is abstracted as an oracle
  `fs : String → Except String String` mapping a path to its content or an
  `OSError`/`IOError` text.
-/

/-- Python truthiness of an optional string: `None` and `""` are falsy. -/
def pyTruthyOptStr : Option String → Bool
  | none => false
  | some s => s != ""

/-- Whitespace characters stripped by Python `str.strip()` (ASCII fragment). -/
def pyIsSpace (c : Char) : Bool :=
  c == ' ' || c == '\t' || c == '\n' || c == '\r'

/-- Strip characters satisfying `p` from both ends of a string. -/
def pyStripChars (p : Char → Bool) (s : String) : String :=
  String.mk (((s.toList.dropWhile p).reverse.dropWhile p).reverse)

/-- Python `str.strip()` (no argument): trim surrounding whitespace. -/
def pyStrip (s : String) : String := pyStripChars pyIsSpace s

/-- Python `str.strip("/")` as used on the configured url. -/
def pyStripSlash (s : String) : String := pyStripChars (fun c => c == '/') s

/-- Python `str.split(sep)` for a one-character separator.
`"".split(",") = [""]` just as in Python. -/
def pySplitAux (sep : Char) : List Char → List Char → List String
  | acc, [] => [String.mk acc.reverse]
  | acc, c :: cs =>
    if c = sep then String.mk acc.reverse :: pySplitAux sep [] cs
    else pySplitAux sep (c :: acc) cs

def pySplit (s : String) (sep : Char) : List String := pySplitAux sep [] s.toList

/-- Python `str.upper()` on ASCII letters. -/
def pyUpperChar (c : Char) : Char :=
  if 'a' ≤ c ∧ c ≤ 'z' then Char.ofNat (c.toNat - 32) else c

def pyUpper (s : String) : String := String.mk (s.toList.map pyUpperChar)

/-- Python `file.readlines()`: split the content into lines, each keeping its
trailing `"\n"`; a final fragment with no newline is kept as-is. -/
def pyReadlinesAux : List Char → List Char → List String
  | acc, [] => if acc.isEmpty then [] else [String.mk acc.reverse]
  | acc, c :: cs =>
    if c = '\n' then String.mk (acc.reverse ++ ['\n']) :: pyReadlinesAux [] cs
    else pyReadlinesAux (c :: acc) cs

def pyReadlines (s : String) : List String := pyReadlinesAux [] s.toList

/-- Python `set(list)`: keep the distinct elements (first occurrence order;
only membership is observable on the driver's filter sets). -/
def pySet (l : List String) : List String :=
  l.foldl (fun acc x => if x ∈ acc then acc else acc ++ [x]) []

/-- Python `int()` applied to a float/rational: truncation toward zero. -/
def pyInt (q : ℚ) : ℤ := if 0 ≤ q then ⌊q⌋ else ⌈q⌉

/-- Decimal digits of a natural number (fuel-driven so it kernel-reduces). -/
def natDigits : ℕ → ℕ → List Char
  | 0, _ => []
  | _ + 1, 0 => []
  | fuel + 1, n => natDigits fuel (n / 10) ++ [Char.ofNat (48 + n % 10)]

/-- Python `str(n)` for a natural number. -/
def pyStrNat (n : ℕ) : String := if n = 0 then "0" else String.mk (natDigits n n)

/-- Python `str(z)` for an integer. -/
def pyStrInt (z : ℤ) : String :=
  if z < 0 then "-" ++ pyStrNat z.natAbs else pyStrNat z.toNat

/-- Python `dict` lookup on an association list: first binding wins. -/
def alookup {α β : Type} [DecidableEq α] (k : α) : List (α × β) → Option β
  | [] => none
  | (a, b) :: rest => if a = k then some b else alookup k rest

/-- `dict.get(k, d)`. -/
def alookupD {α β : Type} [DecidableEq α] (k : α) (l : List (α × β)) (d : β) : β :=
  (alookup k l).getD d

/-- Python `set.add`: insert the value unless already present. -/
def pySetAdd (l : List String) (v : String) : List String :=
  if v ∈ l then l else l ++ [v]

/-- `Except` analogue of "this call raised". -/
def Except.isErr {ε α : Type} : Except ε α → Bool
  | .error _ => true
  | .ok _ => false

/-! ## IocType and the IocFactory registry -/

/-- `class IocType(Enum)` with values FILE / ADDRESS / HOST. -/
inductive IocType where
  | File
  | Address
  | Host
deriving DecidableEq, Repr

/-- Value lookup `IocType(text)`: `none` models the `ValueError` raised by the
Enum constructor on an unknown value. -/
def IocType.ofValue (s : String) : Option IocType :=
  if s = "FILE" then some .File
  else if s = "ADDRESS" then some .Address
  else if s = "HOST" then some .Host
  else none

/-- `IocFactory.from_text`: `cls._ioc_map[IocType(text.strip().upper())]`.
The `_ioc_map` sends each `IocType` to its singleton factory, so the factory
is identified with its `IocType`. -/
def IocFactory.from_text (text : String) : Except String IocType :=
  match IocType.ofValue (pyUpper (pyStrip text)) with
  | some t => Except.ok t
  | none => Except.error "ValueError: not a valid IocType"

/-- `IocFactory.from_text_to_list(text, all_if_none)`.
Source (lines 116-122):
```
if text:
    return [cls.from_text(t) for t in text.split(",")]
elif all_if_none:
    return cls.All()
return []
```
`cls.All()` raises `AttributeError`: the class defines `all` (lower-case),
and even `all` would itself raise, referencing the non-existent `cls.ioc_map`
(the attribute is `_ioc_map`). -/
def IocFactory.from_text_to_list (text : Option String) (all_if_none : Bool) :
    Except String (List IocType) :=
  if pyTruthyOptStr text then
    (pySplit (text.getD "") ',').mapM IocFactory.from_text
  else if all_if_none then
    Except.error "AttributeError: type object IocFactory has no member All"
  else
    Except.ok []

/-! ## IocGrouping -/

inductive IocGrouping where
  | Condensed
  | Expanded
deriving DecidableEq, Repr

def IocGrouping.ofValue (s : String) : Option IocGrouping :=
  if s = "CONDENSED" then some .Condensed
  else if s = "EXPANDED" then some .Expanded
  else none

/-- `IocGrouping.from_text(text, default)`. -/
def IocGrouping.from_text (text : Option String) (dflt : IocGrouping) :
    Except String IocGrouping :=
  if pyTruthyOptStr text then
    match IocGrouping.ofValue (pyUpper (pyStrip (text.getD ""))) with
    | some g => Except.ok g
    | none => Except.error "ValueError: not a valid IocGrouping"
  else
    Except.ok dflt

/-! ## `_Sources`: the source allow-list

`__init__` stores `()` for the wildcard and otherwise the *generator
expression* `(s.strip() for s in sources.split(","))`.  A generator is
consumed by iteration, so each `in` test (`__contains__`) permanently
advances it; the embedding makes the remaining generator items part of the
state and `contains` returns the updated state alongside the answer.
Stripping each piece eagerly (rather than on `next`) is observationally
identical because items are only ever produced in order. -/

structure _Sources where
  all : Bool
  values : List String
deriving DecidableEq, Repr

def _Sources.init (sources : String) : _Sources :=
  let s := pyStrip sources
  if s = "*" then ⟨true, []⟩ else ⟨false, (pySplit s ',').map pyStrip⟩

/-- `key in generator`: consume items until a match (dropping them), or
exhaust the generator. -/
def pyGenFindConsume : List String → String → Bool × List String
  | [], _ => (false, [])
  | x :: xs, k => if x = k then (true, xs) else pyGenFindConsume xs k

/-- `_Sources.__contains__` (returns the answer and the mutated object). -/
def _Sources.contains (s : _Sources) (key : String) : Bool × _Sources :=
  if s.all then (true, s)
  else
    let r := pyGenFindConsume s.values key
    (r.1, ⟨s.all, r.2⟩)

/-! ## ThreatConnectConfig -/

structure ThreatConnectConfig where
  sources : _Sources
  url : String
  api_key : String
  secret_key : String
  filtered_ips_file : Option String
  filtered_hashes_file : Option String
  filtered_hosts_file : Option String
  filtered_ips : List String
  filtered_hashes : List String
  filtered_hosts : List String
  ioc_min_score : ℚ
  ioc_types : List IocType
  ioc_grouping : IocGrouping
  max_reports : ℕ
  default_org : String
deriving DecidableEq, Repr

/-- `ThreatConnectConfig._read_filter_file` (lines 274-281):
no path (or an empty one) yields an empty set; otherwise the file is read and
its raw `readlines()` output becomes the set; an `OSError`/`IOError` is
re-raised as `ValueError` ("Invalid filter file ..."). -/
def ThreatConnectConfig._read_filter_file (fs : String → Except String String)
    (filter_file : Option String) : Except String (List String) :=
  if pyTruthyOptStr filter_file then
    match fs (filter_file.getD "") with
    | Except.ok content => Except.ok (pySet (pyReadlines content))
    | Except.error e =>
      Except.error ("Invalid filter file " ++ filter_file.getD "" ++ ": " ++ e)
  else
    Except.ok []

/-- Line 244 exactly as written in the source:
`self.ioc_min_score = float(min(0, max(100, ioc_min_score))) / 20.0`. -/
def storedMinScore (ioc_min_score : ℤ) : ℚ :=
  ((min 0 (max 100 ioc_min_score) : ℤ) : ℚ) / 20

/-- `ThreatConnectConfig.__init__` (lines 210-250).
The `int(ioc_min_score)` coercion is at the process-configuration boundary;
the embedding takes the already-converted integer.  `default_org` keeps its
Python default `None`; line 248 `default_org.strip()` raises
`AttributeError` when it was never supplied. -/
def ThreatConnectConfig.init (fs : String → Except String String)
    (sources : String) (url : Option String) (api_key : Option String)
    (secret_key : Option String) (filtered_ips : Option String)
    (filtered_hashes : Option String) (filtered_hosts : Option String)
    (ioc_min_score : ℤ) (ioc_types : Option String)
    (ioc_grouping : Option String) (max_reports : ℕ)
    (default_org : Option String) : Except String ThreatConnectConfig :=
  if !pyTruthyOptStr url then
    Except.error "Invalid configuration option url - option missing."
  else if !pyTruthyOptStr api_key then
    Except.error "Invalid configuration option api_key - option missing."
  else if !pyTruthyOptStr secret_key then
    Except.error "Invalid configuration option secret_key - option missing."
  else
    match ThreatConnectConfig._read_filter_file fs filtered_ips with
    | Except.error e => Except.error e
    | Except.ok fips =>
      match ThreatConnectConfig._read_filter_file fs filtered_hashes with
      | Except.error e => Except.error e
      | Except.ok fhashes =>
        match ThreatConnectConfig._read_filter_file fs filtered_hosts with
        | Except.error e => Except.error e
        | Except.ok fhosts =>
          match IocFactory.from_text_to_list ioc_types true with
          | Except.error e => Except.error e
          | Except.ok types =>
            match IocGrouping.from_text ioc_grouping IocGrouping.Expanded with
            | Except.error e => Except.error e
            | Except.ok grouping =>
              match default_org with
              | none =>
                Except.error "AttributeError: NoneType has no member strip"
              | some org =>
                Except.ok
                  { sources := _Sources.init sources
                    url := pyStripSlash (url.getD "")
                    api_key := api_key.getD ""
                    secret_key := secret_key.getD ""
                    filtered_ips_file := filtered_ips
                    filtered_hashes_file := filtered_hashes
                    filtered_hosts_file := filtered_hosts
                    filtered_ips := fips
                    filtered_hashes := fhashes
                    filtered_hosts := fhosts
                    ioc_min_score := storedMinScore ioc_min_score
                    ioc_types := types
                    ioc_grouping := grouping
                    max_reports := max_reports
                    default_org := pyStrip org }

/-! ## `_TcSource` and `_TcSources` -/

/-- A raw "owner" record from the external client (`§6 listOwners`). -/
structure RawOwner where
  id : ℕ
  name : String
deriving DecidableEq, Repr

/-- `_TcSource.__init__`: wraps a raw owner, capturing `int(raw["id"])` and
`raw["name"]` (owner ids from the remote API are non-negative). -/
structure _TcSource where
  id : ℕ
  name : String
deriving DecidableEq, Repr

def _TcSource.ofRaw (r : RawOwner) : _TcSource := ⟨r.id, r.name⟩

/-- `_TcSource.generate_id(score)` (line 306): `(self._id << 8) | score`. -/
def _TcSource.generate_id (s : _TcSource) (score : ℕ) : ℕ :=
  (s.id <<< 8) ||| score

/-- `_TcSources(client)` (lines 311-319): wrap each listed owner and yield it
when its name is in the configured allow-list.  The `_Sources` object is the
*same* mutable object across iterations, so its (generator) state threads
through the loop. -/
def _TcSources (srcs : _Sources) : List RawOwner → List _TcSource
  | [] => []
  | o :: os =>
    let owner := _TcSource.ofRaw o
    let r := srcs.contains owner.name
    if r.1 then owner :: _TcSources r.2 os else _TcSources r.2 os

/-! ## `_TcIndicator` -/

/-- A raw indicator record from the external client (`§6 listIndicators`),
restricted to the fields the driver reads.  `dateAddedEpoch` stands for the
`dateAdded` string already taken through `strptime`/`mktime` (the `timestamp`
property); the date-format plumbing is outside the claims. -/
structure RawIndicator where
  id : ℕ
  threatAssessRating : ℚ
  webLink : String
  tag : List String
  description : String
  dateAddedEpoch : ℤ
deriving DecidableEq, Repr

/-- `_TcIndicator.__init__(indicator, source, key, value)`. -/
structure _TcIndicator where
  raw : RawIndicator
  source : _TcSource
  key : String
  value : String
deriving DecidableEq, Repr

/-- Property `id`: `str(self._indicator["id"])`. -/
def _TcIndicator.id (i : _TcIndicator) : String := pyStrNat i.raw.id

/-- Property `score` (line 74): `int(self._indicator["threatAssessRating"] * 20)`. -/
def _TcIndicator.score (i : _TcIndicator) : ℤ :=
  pyInt (i.raw.threatAssessRating * 20)

/-- The score used as a bucket index / bit pattern.  For ratings in the
documented range 0-5 the score is non-negative, where Python's `int` and this
`ℕ` view agree. -/
def _TcIndicator.scoreNat (i : _TcIndicator) : ℕ := i.score.toNat

def _TcIndicator.link (i : _TcIndicator) : String := i.raw.webLink

def _TcIndicator.tags (i : _TcIndicator) : List String := i.raw.tag

def _TcIndicator.description (i : _TcIndicator) : String := i.raw.description

def _TcIndicator.timestamp (i : _TcIndicator) : ℤ := i.raw.dateAddedEpoch

/-! ## Reports -/

/-- A report id is `str(indicator id)` under Expanded and the synthetic
integer id under Condensed. -/
inductive ReportId where
  | str (s : String)
  | num (n : ℕ)
deriving DecidableEq, Repr

/-- A report record.  `iocs` is a Python dict from sub-type key to a value
collection; `tags = []` stands for the absent `"tags"` entry. -/
structure Report where
  iocs : List (String × List String)
  id : ReportId
  link : String
  title : String
  score : ℤ
  timestamp : ℤ
  tags : List String
deriving DecidableEq, Repr

/-- A placeholder for (never taken) out-of-range list reads. -/
def emptyReport : Report :=
  { iocs := [], id := ReportId.num 0, link := "", title := "", score := 0,
    timestamp := 0, tags := [] }

/-- Percent-encoding of `urllib.quote_plus` (ASCII): space becomes `+`,
letters, digits and `_.-` pass through, anything else becomes `%XX`. -/
def hexDigit (n : ℕ) : Char :=
  if n < 10 then Char.ofNat (48 + n) else Char.ofNat (55 + n)

def pyQuotePlusChar (c : Char) : List Char :=
  if c = ' ' then ['+']
  else if ('A' ≤ c ∧ c ≤ 'Z') ∨ ('a' ≤ c ∧ c ≤ 'z') ∨ ('0' ≤ c ∧ c ≤ '9')
      ∨ c = '_' ∨ c = '.' ∨ c = '-' then [c]
  else ['%', hexDigit (c.toNat / 16 % 16), hexDigit (c.toNat % 16)]

def pyQuotePlus (s : String) : String :=
  String.mk (s.toList.foldr (fun c acc => pyQuotePlusChar c ++ acc) [])

/-! ## The report generators

`_TcReportGenerator.generate_reports` (lines 329-340) iterates sources and
ioc types, creates an indicator (possibly `None` when filtered) for every
fetched record and feeds it to `_add_to_report`; a `False` return aborts the
whole pass (`return self.reports`).  The loop is modelled on the flattened
stream of created `Option`-indicators; the returned `Bool` is `false` exactly
when the pass was cut short by `_add_to_report`. -/

def generate_reports_loop {σ : Type} (add : σ → Option _TcIndicator → Bool × σ) :
    σ → List (Option _TcIndicator) → Bool × σ
  | st, [] => (true, st)
  | st, i :: is =>
    let r := add st i
    if r.1 then generate_reports_loop add r.2 is else (false, r.2)

namespace _ExpandedReportGenerator

/-- The mutable state of `_ExpandedReportGenerator` (plus the base class's
one-shot `_notified_max_reports` flag). -/
structure State where
  reports : List Report
  notified_max_reports : Bool
deriving DecidableEq, Repr

def State.init : State := ⟨[], false⟩

/-- The report built for one indicator (lines 365-372). -/
def mkReport (ind : _TcIndicator) : Report :=
  { iocs := [(ind.key, [ind.value])]
    id := ReportId.str ind.id
    link := ind.link
    title := if ind.description != "" then ind.description
             else ind.source.name ++ " - " ++ ind.id
    score := ind.score
    timestamp := ind.timestamp
    tags := ind.tags }

/-- `_ExpandedReportGenerator._add_to_report` (lines 359-374). -/
def _add_to_report (cfg : ThreatConnectConfig) (st : State) :
    Option _TcIndicator → Bool × State
  | none => (true, st)
  | some ind =>
    if cfg.max_reports ≠ 0 ∧ st.reports.length ≥ cfg.max_reports then
      (false, ⟨st.reports, true⟩)
    else
      (true, ⟨st.reports ++ [mkReport ind], st.notified_max_reports⟩)

end _ExpandedReportGenerator

namespace _CondensedReportGenerator

/-- The mutable state of `_CondensedReportGenerator`.  Python stores report
dicts both in `_reports` (a list) and in per-source score lists inside
`_reports_map`, all aliasing the same dict objects; the embedding stores the
reports once in `reports` and lets the map hold *indices* into it.  A map
binding `(source id, score-assoc-list)` stands for the `[None] * 101` score
list with the bound positions filled (`_TcSource` objects are dict keys by
identity; within one pass each source is wrapped once, so keying by the
numeric source id is faithful). -/
structure State where
  reports_map : List (ℕ × List (ℕ × ℕ))
  reports : List Report
  converted_sets : Bool
  notified_max_reports : Bool
deriving DecidableEq, Repr

def State.init : State := ⟨[], [], true, false⟩

/-- `_get_score_list` (lines 389-394): fetch the source's score list,
creating and storing an empty one first if absent.  (A stored score list is
always truthy in Python - it is a 101-element list of `None`s.) -/
def _get_score_list (st : State) (srcId : ℕ) : List (ℕ × ℕ) × State :=
  match alookup srcId st.reports_map with
  | some sl => (sl, st)
  | none => ([], { st with reports_map := (srcId, []) :: st.reports_map })

/-- `_generate_link` (lines 396-398):
`"{url}/auth/browse/index.xhtml?" + urlencode({"filters": 'ownername = "{source}"'})`. -/
def _generate_link (cfg : ThreatConnectConfig) (sourceName : String) : String :=
  cfg.url ++ "/auth/browse/index.xhtml?" ++ pyQuotePlus "filters" ++ "=" ++
    pyQuotePlus ("ownername = \"" ++ sourceName ++ "\"")

/-- The fresh bucket report built by `_get_report` (lines 408-413). -/
def freshReport (cfg : ThreatConnectConfig) (ind : _TcIndicator) : Report :=
  { iocs := []
    id := ReportId.num (ind.source.generate_id ind.scoreNat)
    link := _generate_link cfg ind.source.name
    title := ind.source.name ++ " - " ++ pyStrInt ind.score
    score := ind.score
    timestamp := ind.timestamp
    tags := [] }

/-- `_get_report` (lines 400-416): return (the index of) the (source, score)
bucket report, lazily creating it; creation is cap-checked and returns `None`
(with the one-shot notification) when the cap is reached. -/
def _get_report (cfg : ThreatConnectConfig) (st : State) (ind : _TcIndicator) :
    Option ℕ × State :=
  let r := _get_score_list st ind.source.id
  match alookup ind.scoreNat r.1 with
  | some idx => (some idx, r.2)
  | none =>
    if cfg.max_reports ≠ 0 ∧ r.2.reports.length ≥ cfg.max_reports then
      (none, { r.2 with notified_max_reports := true })
    else
      (some r.2.reports.length,
        { r.2 with
            reports := r.2.reports ++ [freshReport cfg ind]
            reports_map :=
              (ind.source.id, (ind.scoreNat, r.2.reports.length) :: r.1) ::
                r.2.reports_map })

/-- The ioc-set insertion of `_add_to_report` (lines 424-429): fetch the
key's set (a missing or *empty* set is falsy, so a fresh set is bound), then
`set.add` the value. -/
def addIoc (r : Report) (k v : String) : Report :=
  match alookup k r.iocs with
  | some l =>
    if l = [] then { r with iocs := (k, [v]) :: r.iocs }
    else { r with iocs := (k, pySetAdd l v) :: r.iocs }
  | none => { r with iocs := (k, [v]) :: r.iocs }

/-- `_CondensedReportGenerator._add_to_report` (lines 418-430).  Note that it
returns `True` on every path - also when `_get_report` rejected the indicator
because the cap was reached. -/
def _add_to_report (cfg : ThreatConnectConfig) (st : State) :
    Option _TcIndicator → Bool × State
  | none => (true, st)
  | some ind =>
    match _get_report cfg st ind with
    | (some idx, st1) =>
      (true,
        { st1 with
            converted_sets := false
            reports :=
              match st1.reports.get? idx with
              | some r => st1.reports.set idx (addIoc r ind.key ind.value)
              | none => st1.reports })
    | (none, st1) => (true, st1)

/-- The bucket (report index) currently registered for an indicator's
(source, score) pair - the lookup `_get_report` starts with. -/
def bucketOf (st : State) (ind : _TcIndicator) : Option ℕ :=
  alookup ind.scoreNat (alookupD ind.source.id st.reports_map [])

/-- The value collection recorded for sub-type key `k` in report number
`idx`. -/
def valuesAt (st : State) (idx : ℕ) (k : String) : List String :=
  alookupD k ((st.reports.getD idx emptyReport).iocs) []

end _CondensedReportGenerator

/-! ## Helper lemmas about the embedded operations -/

theorem pySetAdd_mem_self (l : List String) (v : String) : v ∈ pySetAdd l v := by
  unfold pySetAdd
  split
  · assumption
  · simp

theorem pySetAdd_mem_of_mem (l : List String) (v w : String) (h : w ∈ l) :
    w ∈ pySetAdd l v := by
  unfold pySetAdd
  split
  · assumption
  · simp [h]

theorem pySetAdd_of_mem (l : List String) (v : String) (h : v ∈ l) :
    pySetAdd l v = l := by
  unfold pySetAdd
  rw [if_pos h]

namespace _ExpandedReportGenerator

/-- Below the cap (or with cap 0 = unlimited), the Expanded generator accepts
every indicator and appends its one-to-one report, in arrival order. -/
theorem run_complete (cfg : ThreatConnectConfig) :
    ∀ (inds : List _TcIndicator) (st : State),
      (cfg.max_reports = 0 ∨ st.reports.length + inds.length ≤ cfg.max_reports) →
      generate_reports_loop (_add_to_report cfg) st (inds.map some) =
        (true, ⟨st.reports ++ inds.map mkReport, st.notified_max_reports⟩) := by
  intro inds
  induction inds with
  | nil =>
    intro st _
    simp [generate_reports_loop]
  | cons a l ih =>
    intro st h
    have hcap : ¬(cfg.max_reports ≠ 0 ∧ st.reports.length ≥ cfg.max_reports) := by
      rcases h with h | h
      · simp [h]
      · simp only [List.length_cons] at h
        omega
    simp only [List.map_cons, generate_reports_loop, _add_to_report, if_neg hcap]
    rw [if_pos trivial]
    rw [ih]
    · simp [List.append_assoc]
    · rcases h with h | h
      · exact Or.inl h
      · right
        simp only [List.length_append, List.length_cons, List.length_map,
          List.length_nil] at h ⊢
        omega

end _ExpandedReportGenerator

namespace _CondensedReportGenerator

/-- The state after the very first `_add_to_report` on a fresh generator:
one bucket for the indicator's (source, score), holding its single value. -/
def afterOne (cfg : ThreatConnectConfig) (i : _TcIndicator) : State :=
  ⟨[(i.source.id, [(i.scoreNat, 0)]), (i.source.id, [])],
    [{ freshReport cfg i with iocs := [(i.key, [i.value])] }], false, false⟩

theorem add_init (cfg : ThreatConnectConfig) (i : _TcIndicator) :
    _add_to_report cfg State.init (some i) = (true, afterOne cfg i) := by
  have hcap0 : ¬(cfg.max_reports ≠ 0 ∧ (0 : ℕ) ≥ cfg.max_reports) := by
    simp
  unfold _add_to_report _get_report _get_score_list State.init afterOne
  simp only [alookup, List.length_nil, if_neg hcap0]
  simp only [addIoc, alookup, List.get?]
  rfl

/-- A second indicator with the same source id, the same score and the same
sub-type key lands in the one existing bucket (no new report). -/
theorem add_second (cfg : ThreatConnectConfig) (i1 i2 : _TcIndicator)
    (hid : i1.source.id = i2.source.id) (hscN : i1.scoreNat = i2.scoreNat)
    (hkey : i1.key = i2.key) :
    _add_to_report cfg (afterOne cfg i1) (some i2) =
      (true,
        ⟨(afterOne cfg i1).reports_map,
          [{ freshReport cfg i1 with
              iocs := (i2.key, pySetAdd [i1.value] i2.value) ::
                [(i1.key, [i1.value])] }],
          false, false⟩) := by
  unfold _add_to_report _get_report _get_score_list afterOne
  simp only [alookup, if_pos hid, if_pos hscN, if_pos hkey]
  simp only [addIoc, alookup, List.get?, if_pos hkey]
  rfl

/-- `addIoc r k v` records `v` under key `k`. -/
theorem addIoc_mem (r : Report) (k v : String) :
    v ∈ alookupD k (addIoc r k v).iocs [] := by
  unfold addIoc alookupD
  cases h : alookup k r.iocs with
  | none => simp [alookup]
  | some l =>
    simp only [h]
    by_cases hl : l = []
    · simp [hl, alookup]
    · simp only [if_neg hl, alookup, if_pos rfl, Option.getD]
      exact pySetAdd_mem_self l v

end _CondensedReportGenerator

/-! ## Concrete fixtures used by counterexamples and witnesses -/

/-- A run configuration with `max_reports = 1` (the report cap is one). -/
def cfgCap1 : ThreatConnectConfig :=
  ⟨_Sources.init "*", "https://tc.example.com", "k", "s", none, none, none,
    [], [], [], 0, [IocType.Address], IocGrouping.Condensed, 1, "org"⟩

def srcA : _TcSource := ⟨1, "SourceA"⟩

/-- Address indicator from `srcA`, raw rating 1 (score 20), value 1.1.1.1. -/
def c1i1 : _TcIndicator := ⟨⟨11, 1, "l1", [], "", 0⟩, srcA, "ipv4", "1.1.1.1"⟩

/-- Address indicator from `srcA`, raw rating 2 (score 40), value 2.2.2.2. -/
def c1i2 : _TcIndicator := ⟨⟨12, 2, "l2", [], "", 0⟩, srcA, "ipv4", "2.2.2.2"⟩

/-- Address indicator from `srcA`, raw rating 1 (score 20), value 3.3.3.3. -/
def c1i3 : _TcIndicator := ⟨⟨13, 1, "l3", [], "", 0⟩, srcA, "ipv4", "3.3.3.3"⟩

theorem c1i1_scoreNat : c1i1.scoreNat = 20 := by
  unfold _TcIndicator.scoreNat _TcIndicator.score c1i1
  rw [pyInt]
  norm_num
  rfl

theorem c1i2_scoreNat : c1i2.scoreNat = 40 := by
  unfold _TcIndicator.scoreNat _TcIndicator.score c1i2
  rw [pyInt]
  norm_num
  rfl

theorem c1i3_scoreNat : c1i3.scoreNat = 20 := by
  unfold _TcIndicator.scoreNat _TcIndicator.score c1i3
  rw [pyInt]
  norm_num
  rfl

namespace _CondensedReportGenerator

/-- With the cap already reached, the arrival of `c1i2` (a new
(source, score) combination) is rejected: no bucket is created, only the
one-shot notification flag flips - and `_add_to_report` still answers
`True`. -/
theorem c1_step2 :
    _add_to_report cfgCap1 (afterOne cfgCap1 c1i1) (some c1i2) =
      (true, { afterOne cfgCap1 c1i1 with notified_max_reports := true }) := by
  unfold _add_to_report _get_report _get_score_list afterOne
  simp only [c1i1_scoreNat, c1i2_scoreNat, alookup]
  norm_num [cfgCap1, c1i1, c1i2, srcA]

/-- After the rejection, `c1i3` (existing bucket) is still recorded. -/
theorem c1_step3 :
    _add_to_report cfgCap1 { afterOne cfgCap1 c1i1 with notified_max_reports := true }
        (some c1i3) =
      (true,
        ⟨(afterOne cfgCap1 c1i1).reports_map,
          [{ freshReport cfgCap1 c1i1 with
              iocs := [("ipv4", ["1.1.1.1", "3.3.3.3"]), ("ipv4", ["1.1.1.1"])] }],
          false, true⟩) := by
  unfold _add_to_report _get_report _get_score_list afterOne
  simp only [c1i1_scoreNat, c1i3_scoreNat, alookup]
  norm_num [c1i1, c1i3, srcA]
  simp [addIoc, alookup, pySetAdd, c1i1, c1i3]

end _CondensedReportGenerator

/-! ## Claims -/

/-- C1 counterexample input state: the Condensed generator after `c1i1`
only, written out literally (bucket (source 1, score 20) is report 0). -/
def w1report : Report :=
  ⟨[("ipv4", ["1.1.1.1"])], ReportId.num 276, "lnk", "SourceA - 20", 20, 0, []⟩

def w1state : _CondensedReportGenerator.State :=
  ⟨[(1, [(20, 0)])], [w1report], false, false⟩

/-- C1 (counterexample): with `max_reports = 1`, after `c1i1` has created the
only allowed bucket, the new (source, score) combination `c1i2` is rejected
- yet the generation pass does NOT stop: the loop runs to completion
(`.1 = true`), the later indicator `c1i3` is still recorded into the
existing bucket (`"3.3.3.3"` appears), the report count stays 1, and no
bucket was created for `c1i2`.  The claim's "generation stops" is false on
this input. -/
theorem C1_counterexample :
    (generate_reports_loop (_CondensedReportGenerator._add_to_report cfgCap1)
        _CondensedReportGenerator.State.init [some c1i1, some c1i2, some c1i3]).1
      = true ∧
    (generate_reports_loop (_CondensedReportGenerator._add_to_report cfgCap1)
        _CondensedReportGenerator.State.init
        [some c1i1, some c1i2, some c1i3]).2.reports.length = 1 ∧
    "3.3.3.3" ∈ _CondensedReportGenerator.valuesAt
      (generate_reports_loop (_CondensedReportGenerator._add_to_report cfgCap1)
        _CondensedReportGenerator.State.init [some c1i1, some c1i2, some c1i3]).2
      0 "ipv4" ∧
    _CondensedReportGenerator.bucketOf
      (generate_reports_loop (_CondensedReportGenerator._add_to_report cfgCap1)
        _CondensedReportGenerator.State.init [some c1i1, some c1i2, some c1i3]).2
      c1i2 = none := by
  have run3 : generate_reports_loop
      (_CondensedReportGenerator._add_to_report cfgCap1)
      _CondensedReportGenerator.State.init [some c1i1, some c1i2, some c1i3] =
      (true,
        ⟨(_CondensedReportGenerator.afterOne cfgCap1 c1i1).reports_map,
          [{ _CondensedReportGenerator.freshReport cfgCap1 c1i1 with
              iocs := [("ipv4", ["1.1.1.1", "3.3.3.3"]), ("ipv4", ["1.1.1.1"])] }],
          false, true⟩) := by
    simp only [generate_reports_loop, _CondensedReportGenerator.add_init cfgCap1 c1i1,
      _CondensedReportGenerator.c1_step2, _CondensedReportGenerator.c1_step3, if_true]
  rw [run3]
  refine ⟨rfl, rfl, ?_, ?_⟩
  · unfold _CondensedReportGenerator.valuesAt alookupD
    simp [alookup]
  · unfold _CondensedReportGenerator.bucketOf alookupD
      _CondensedReportGenerator.afterOne
    simp only [c1i1_scoreNat, c1i2_scoreNat, alookup]
    norm_num [c1i1, c1i2, srcA]

/-- C1 (amended): for every generation pass with a positive `max_reports`,
once `max_reports` distinct buckets exist, an indicator whose
(source, score) combination has no existing bucket is rejected - no bucket
is created and its value is dropped - but the generation pass *continues*
(`_add_to_report` answers `True`); an indicator whose (source, score)
bucket already exists is still accepted (its value is recorded in that
bucket) and does not count against the cap (the report count is
unchanged). -/
theorem C1_condensed_cap_amended (cfg : ThreatConnectConfig)
    (st : _CondensedReportGenerator.State) (ind ind' : _TcIndicator) (idx : ℕ)
    (hcap : cfg.max_reports ≠ 0) (hfull : st.reports.length ≥ cfg.max_reports)
    (hnew : _CondensedReportGenerator.bucketOf st ind = none)
    (hex : _CondensedReportGenerator.bucketOf st ind' = some idx)
    (hidx : idx < st.reports.length) :
    (_CondensedReportGenerator._add_to_report cfg st (some ind)).1 = true ∧
    (_CondensedReportGenerator._add_to_report cfg st (some ind)).2.reports
      = st.reports ∧
    (_CondensedReportGenerator._add_to_report cfg st (some ind')).1 = true ∧
    (_CondensedReportGenerator._add_to_report cfg st (some ind')).2.reports.length
      = st.reports.length ∧
    ind'.value ∈ _CondensedReportGenerator.valuesAt
      (_CondensedReportGenerator._add_to_report cfg st (some ind')).2 idx
      ind'.key := by
  unfold _CondensedReportGenerator.bucketOf alookupD at hnew hex
  have hrej :
      (_CondensedReportGenerator._add_to_report cfg st (some ind)).1 = true ∧
      (_CondensedReportGenerator._add_to_report cfg st (some ind)).2.reports
        = st.reports := by
    unfold _CondensedReportGenerator._add_to_report
      _CondensedReportGenerator._get_report
      _CondensedReportGenerator._get_score_list
    cases hm : alookup ind.source.id st.reports_map with
    | none =>
      simp only [hm, Option.getD, alookup] at hnew ⊢
      rw [if_pos ⟨hcap, hfull⟩]
      exact ⟨rfl, rfl⟩
    | some sl =>
      simp only [hm, Option.getD] at hnew
      simp only [hm, hnew]
      rw [if_pos ⟨hcap, hfull⟩]
      exact ⟨rfl, rfl⟩
  have hacc : _CondensedReportGenerator._add_to_report cfg st (some ind') =
      (true,
        ⟨st.reports_map,
          st.reports.set idx
            (_CondensedReportGenerator.addIoc (st.reports.get ⟨idx, hidx⟩)
              ind'.key ind'.value),
          false, st.notified_max_reports⟩) := by
    unfold _CondensedReportGenerator._add_to_report
      _CondensedReportGenerator._get_report
      _CondensedReportGenerator._get_score_list
    cases hm : alookup ind'.source.id st.reports_map with
    | none => simp [hm, Option.getD, alookup] at hex
    | some sl =>
      simp only [hm, Option.getD] at hex
      simp only [hm, hex]
      have hget : st.reports.get? idx = some (st.reports.get ⟨idx, hidx⟩) :=
        List.get?_eq_get hidx
      simp only [hget]
  refine ⟨hrej.1, hrej.2, ?_, ?_, ?_⟩
  · rw [hacc]
  · rw [hacc]
    exact List.length_set st.reports idx _
  · rw [hacc]
    unfold _CondensedReportGenerator.valuesAt
    have hgd : (st.reports.set idx
        (_CondensedReportGenerator.addIoc (st.reports.get ⟨idx, hidx⟩)
          ind'.key ind'.value)).getD idx emptyReport =
        _CondensedReportGenerator.addIoc (st.reports.get ⟨idx, hidx⟩)
          ind'.key ind'.value := by
      rw [List.getD_eq_getElem?_getD]
      rw [List.getElem?_set_eq_of_lt _ hidx]
      rfl
    rw [hgd]
    exact _CondensedReportGenerator.addIoc_mem _ _ _

/-- C1 witness: the amended statement holds at the concrete cap-1 run state
`w1state` with the rejected indicator `c1i2` and the accepted `c1i1`. -/
theorem C1_condensed_cap_amended_witness :
    cfgCap1.max_reports ≠ 0 ∧
    w1state.reports.length ≥ cfgCap1.max_reports ∧
    _CondensedReportGenerator.bucketOf w1state c1i2 = none ∧
    _CondensedReportGenerator.bucketOf w1state c1i1 = some 0 ∧
    0 < w1state.reports.length ∧
    ((_CondensedReportGenerator._add_to_report cfgCap1 w1state (some c1i2)).1
        = true ∧
      (_CondensedReportGenerator._add_to_report cfgCap1 w1state
        (some c1i2)).2.reports = w1state.reports ∧
      (_CondensedReportGenerator._add_to_report cfgCap1 w1state (some c1i1)).1
        = true ∧
      (_CondensedReportGenerator._add_to_report cfgCap1 w1state
        (some c1i1)).2.reports.length = w1state.reports.length ∧
      c1i1.value ∈ _CondensedReportGenerator.valuesAt
        (_CondensedReportGenerator._add_to_report cfgCap1 w1state
          (some c1i1)).2 0 c1i1.key) :=
  ⟨by decide, by decide,
    by
      unfold _CondensedReportGenerator.bucketOf alookupD w1state
      simp only [c1i2_scoreNat]
      norm_num [alookup, c1i2, srcA],
    by
      unfold _CondensedReportGenerator.bucketOf alookupD w1state
      simp only [c1i1_scoreNat]
      norm_num [alookup, c1i1, srcA],
    by decide,
    C1_condensed_cap_amended cfgCap1 w1state c1i2 c1i1 0 (by decide) (by decide)
      (by
        unfold _CondensedReportGenerator.bucketOf alookupD w1state
        simp only [c1i2_scoreNat]
        norm_num [alookup, c1i2, srcA])
      (by
        unfold _CondensedReportGenerator.bucketOf alookupD w1state
        simp only [c1i1_scoreNat]
        norm_num [alookup, c1i1, srcA])
      (by decide)⟩

/-- A file-system oracle on which every open fails (no filter files are
configured in the runs that use it, so it is never consulted). -/
def fsEmpty : String → Except String String := fun _ => Except.error "ENOENT"

/-- C2: for every integer `min_score` input the spec claims the stored
threshold is `clamp(min_score, 0, 100) / 20`.  The code (line 244) computes
`float(min(0, max(100, ioc_min_score))) / 20.0` - the clamp is inverted, so
the stored value is always `0`.  At the failing input `ioc_min_score = 50`
(other options valid) the code stores `0`, while the claim's formula gives
`max(0, min(100, 50)) / 20 = 5/2 ≠ 0`. -/
theorem C2_min_score_clamp_code_eval :
    (ThreatConnectConfig.init fsEmpty "*" (some "https://tc.example.com")
        (some "k") (some "s") none none none 50 (some "FILE") none 0
        (some "org")).toOption.map (fun c => c.ioc_min_score)
      = some (storedMinScore 50) ∧
    storedMinScore 50 = 0 ∧
    ((max 0 (min 100 (50 : ℤ)) : ℤ) : ℚ) / 20 = 5 / 2 ∧
    (0 : ℚ) ≠ 5 / 2 :=
  ⟨rfl, by norm_num [storedMinScore], by norm_num, by norm_num⟩

/-- C3: `kindsFromText`.  Non-empty input parses the comma-separated kinds
and empty input with `allIfEmpty` unset yields the empty list, as claimed -
but empty (or absent) input with `allIfEmpty` set does not return the full
kind set: it raises `AttributeError` (the code calls the non-existent
`cls.All()`, and even the intended `all` reads the non-existent
`cls.ioc_map`). -/
theorem C3_kinds_from_text_code_eval :
    IocFactory.from_text_to_list (some "file, ADDRESS") true =
      Except.ok [IocType.File, IocType.Address] ∧
    IocFactory.from_text_to_list none false = Except.ok [] ∧
    IocFactory.from_text_to_list (some "") false = Except.ok [] ∧
    IocFactory.from_text_to_list none true =
      Except.error "AttributeError: type object IocFactory has no member All" ∧
    IocFactory.from_text_to_list (some "") true =
      Except.error "AttributeError: type object IocFactory has no member All" :=
  ⟨rfl, rfl, rfl, rfl, rfl⟩

/-- C4: source enumeration.  Because `_Sources` stores the allow-list as a
one-shot generator, membership degrades across successive owners: with the
explicit allow-list `"A,B"` and the owner listing `[B, A]`, only `B` is
yielded although `"A"` is in the allow-list - refuting "every owner whose
name is in that list is yielded".  (With the wildcard, all owners are
yielded.) -/
theorem C4_source_enumeration_code_eval :
    _TcSources (_Sources.init "A,B") [⟨1, "B"⟩, ⟨2, "A"⟩] = [⟨1, "B"⟩] ∧
    "A" ∈ (_Sources.init "A,B").values ∧
    _TcSources (_Sources.init "*") [⟨1, "B"⟩, ⟨2, "A"⟩] = [⟨1, "B"⟩, ⟨2, "A"⟩] :=
  ⟨rfl, by decide, rfl⟩

/-- C5: Condensed merging and deduplication.  Two indicators with the same
source, score and sub-type key but different values produce exactly one
report whose `iocs` entry for that key contains both values; and adding the
same value twice leaves the bucket's value collection without duplicates
(`[value]` exactly). -/
theorem C5_condensed_merge_dedup (cfg : ThreatConnectConfig)
    (i1 i2 : _TcIndicator)
    (hsrc : i1.source = i2.source) (hsc : i1.score = i2.score)
    (hkey : i1.key = i2.key) (hne : i1.value ≠ i2.value) :
    ((generate_reports_loop (_CondensedReportGenerator._add_to_report cfg)
        _CondensedReportGenerator.State.init
        [some i1, some i2]).2.reports.length = 1 ∧
      i1.value ∈ _CondensedReportGenerator.valuesAt
        (generate_reports_loop (_CondensedReportGenerator._add_to_report cfg)
          _CondensedReportGenerator.State.init [some i1, some i2]).2 0 i2.key ∧
      i2.value ∈ _CondensedReportGenerator.valuesAt
        (generate_reports_loop (_CondensedReportGenerator._add_to_report cfg)
          _CondensedReportGenerator.State.init [some i1, some i2]).2 0 i2.key) ∧
    _CondensedReportGenerator.valuesAt
      (generate_reports_loop (_CondensedReportGenerator._add_to_report cfg)
        _CondensedReportGenerator.State.init [some i1, some i1]).2 0 i1.key
      = [i1.value] := by
  have hscN : i1.scoreNat = i2.scoreNat := by
    unfold _TcIndicator.scoreNat
    rw [hsc]
  have L1 := _CondensedReportGenerator.add_init cfg i1
  have L2 := _CondensedReportGenerator.add_second cfg i1 i2 (by rw [hsrc]) hscN hkey
  have L2d := _CondensedReportGenerator.add_second cfg i1 i1 rfl rfl rfl
  have run2 : generate_reports_loop
      (_CondensedReportGenerator._add_to_report cfg)
      _CondensedReportGenerator.State.init [some i1, some i2] =
      (true,
        ⟨(_CondensedReportGenerator.afterOne cfg i1).reports_map,
          [{ _CondensedReportGenerator.freshReport cfg i1 with
              iocs := (i2.key, pySetAdd [i1.value] i2.value) ::
                [(i1.key, [i1.value])] }],
          false, false⟩) := by
    simp only [generate_reports_loop, L1, L2, if_true]
  have run2d : generate_reports_loop
      (_CondensedReportGenerator._add_to_report cfg)
      _CondensedReportGenerator.State.init [some i1, some i1] =
      (true,
        ⟨(_CondensedReportGenerator.afterOne cfg i1).reports_map,
          [{ _CondensedReportGenerator.freshReport cfg i1 with
              iocs := (i1.key, pySetAdd [i1.value] i1.value) ::
                [(i1.key, [i1.value])] }],
          false, false⟩) := by
    simp only [generate_reports_loop, L1, L2d, if_true]
  rw [run2, run2d]
  unfold _CondensedReportGenerator.valuesAt alookupD
  simp only [List.getD, List.get?, Option.getD, alookup, if_pos rfl]
  refine ⟨⟨rfl, ?_, ?_⟩, ?_⟩
  · exact pySetAdd_mem_of_mem _ _ _ (by simp)
  · exact pySetAdd_mem_self _ _
  · rw [pySetAdd_of_mem _ _ (by simp)]
    simp

/-- C5 witness: the merge/dedup statement at the concrete indicators `c1i1`
and `c1i3` (same source, both rated 1 hence score 20, key `ipv4`, values
1.1.1.1 vs 3.3.3.3) under the cap-1 configuration. -/
theorem C5_condensed_merge_dedup_witness :
    c1i1.source = c1i3.source ∧ c1i1.score = c1i3.score ∧
    c1i1.key = c1i3.key ∧ c1i1.value ≠ c1i3.value ∧
    (((generate_reports_loop (_CondensedReportGenerator._add_to_report cfgCap1)
        _CondensedReportGenerator.State.init
        [some c1i1, some c1i3]).2.reports.length = 1 ∧
      c1i1.value ∈ _CondensedReportGenerator.valuesAt
        (generate_reports_loop (_CondensedReportGenerator._add_to_report cfgCap1)
          _CondensedReportGenerator.State.init [some c1i1, some c1i3]).2 0
        c1i3.key ∧
      c1i3.value ∈ _CondensedReportGenerator.valuesAt
        (generate_reports_loop (_CondensedReportGenerator._add_to_report cfgCap1)
          _CondensedReportGenerator.State.init [some c1i1, some c1i3]).2 0
        c1i3.key) ∧
    _CondensedReportGenerator.valuesAt
      (generate_reports_loop (_CondensedReportGenerator._add_to_report cfgCap1)
        _CondensedReportGenerator.State.init [some c1i1, some c1i1]).2 0
      c1i1.key = [c1i1.value]) :=
  ⟨rfl, rfl, rfl, by decide,
    C5_condensed_merge_dedup cfgCap1 c1i1 c1i3 rfl rfl rfl (by decide)⟩

/-- C6: Expanded cap enforcement and one-to-one fidelity.  The claim is
about two regimes, so each gets its own run configuration.  In a pass whose
`max_reports` is positive (`cfg`), once `max_reports` reports have
accumulated, the next accepted (non-`None`) indicator makes
`_add_to_report` answer `False` and the generation pass stops immediately,
whatever the indicator (its kind and source are arbitrary); and in a pass
(`cfg2`) whose cap is `0` (unlimited) or `≥ N`, `N` accepted indicators
produce exactly the `N` one-to-one reports, each with a single-entry `iocs`
mapping holding a one-element value list. -/
theorem C6_expanded_cap_fidelity (cfg cfg2 : ThreatConnectConfig)
    (st : _ExpandedReportGenerator.State) (ind : _TcIndicator)
    (rest : List (Option _TcIndicator)) (inds : List _TcIndicator)
    (hcap : cfg.max_reports ≠ 0) (hfull : st.reports.length ≥ cfg.max_reports)
    (hN : cfg2.max_reports = 0 ∨ inds.length ≤ cfg2.max_reports) :
    (_ExpandedReportGenerator._add_to_report cfg st (some ind)).1 = false ∧
    generate_reports_loop (_ExpandedReportGenerator._add_to_report cfg) st
      (some ind :: rest) = (false, ⟨st.reports, true⟩) ∧
    (generate_reports_loop (_ExpandedReportGenerator._add_to_report cfg2)
        _ExpandedReportGenerator.State.init (inds.map some)).2.reports =
      inds.map _ExpandedReportGenerator.mkReport ∧
    ∀ r ∈ (generate_reports_loop (_ExpandedReportGenerator._add_to_report cfg2)
        _ExpandedReportGenerator.State.init (inds.map some)).2.reports,
      ∃ k v, r.iocs = [(k, [v])] := by
  have hstop : _ExpandedReportGenerator._add_to_report cfg st (some ind) =
      (false, ⟨st.reports, true⟩) := by
    simp only [_ExpandedReportGenerator._add_to_report]
    rw [if_pos ⟨hcap, hfull⟩]
  have hrun := _ExpandedReportGenerator.run_complete cfg2 inds
    _ExpandedReportGenerator.State.init
    (by
      rcases hN with h | h
      · exact Or.inl h
      · right
        simpa [_ExpandedReportGenerator.State.init] using h)
  refine ⟨by rw [hstop], ?_, ?_, ?_⟩
  · simp only [generate_reports_loop, hstop]
    simp
  · rw [hrun]
    simp [_ExpandedReportGenerator.State.init]
  · rw [hrun]
    intro r hr
    simp only [_ExpandedReportGenerator.State.init, List.nil_append,
      List.mem_map] at hr
    obtain ⟨i, _, rfl⟩ := hr
    exact ⟨i.key, i.value, rfl⟩

/-- C6 witness fixture: an Expanded generator holding one report already. -/
def w6state : _ExpandedReportGenerator.State :=
  ⟨[w1report], false⟩

/-- C6 witness fixture: a run configuration with `max_reports = 0`, the
unlimited-cap regime. -/
def cfgCap0 : ThreatConnectConfig :=
  ⟨_Sources.init "*", "https://tc.example.com", "k", "s", none, none, none,
    [], [], [], 0, [IocType.Address], IocGrouping.Expanded, 0, "org"⟩

/-- C6 witness: the stop part at the cap-1 configuration with the one-report
state `w6state` and next indicator `c1i2`, and the fidelity part at the
cap-0 (unlimited) configuration `cfgCap0` with the input stream `[c1i3]`. -/
theorem C6_expanded_cap_fidelity_witness :
    cfgCap1.max_reports ≠ 0 ∧
    w6state.reports.length ≥ cfgCap1.max_reports ∧
    (cfgCap0.max_reports = 0 ∨ [c1i3].length ≤ cfgCap0.max_reports) ∧
    ((_ExpandedReportGenerator._add_to_report cfgCap1 w6state (some c1i2)).1
        = false ∧
      generate_reports_loop (_ExpandedReportGenerator._add_to_report cfgCap1)
        w6state [some c1i2] = (false, ⟨w6state.reports, true⟩) ∧
      (generate_reports_loop (_ExpandedReportGenerator._add_to_report cfgCap0)
          _ExpandedReportGenerator.State.init
          ([c1i3].map some)).2.reports =
        [c1i3].map _ExpandedReportGenerator.mkReport ∧
      ∀ r ∈ (generate_reports_loop
          (_ExpandedReportGenerator._add_to_report cfgCap0)
          _ExpandedReportGenerator.State.init ([c1i3].map some)).2.reports,
        ∃ k v, r.iocs = [(k, [v])]) :=
  ⟨by decide, by decide, Or.inl (by decide),
    C6_expanded_cap_fidelity cfgCap1 cfgCap0 w6state c1i2 [] [c1i3] (by decide)
      (by decide) (Or.inl (by decide))⟩

/-- C7 file-system oracle: one readable filter file of two IP lines plus a
path whose open fails. -/
def fsC7 : String → Except String String := fun p =>
  if p = "ips.txt" then Except.ok "1.2.3.4\n5.6.7.8\n" else Except.error "ENOENT"

/-- C7: filter-file loading.  A missing/empty path yields an empty set and
an I/O failure raises the configuration `ValueError`, as claimed - but a
readable file does NOT yield trimmed lines: `set(f.readlines())` keeps each
line's trailing newline, so for the content `"1.2.3.4\n5.6.7.8\n"` the set
is `{"1.2.3.4\n", "5.6.7.8\n"}` and the trimmed value `"1.2.3.4"` is not in
it (which also defeats the later `indicator.value in filters` check). -/
theorem C7_filter_file_code_eval :
    ThreatConnectConfig._read_filter_file fsC7 (some "ips.txt") =
      Except.ok ["1.2.3.4\n", "5.6.7.8\n"] ∧
    "1.2.3.4" ∉ ["1.2.3.4\n", "5.6.7.8\n"] ∧
    ThreatConnectConfig._read_filter_file fsC7 none = Except.ok [] ∧
    ThreatConnectConfig._read_filter_file fsC7 (some "") = Except.ok [] ∧
    (ThreatConnectConfig._read_filter_file fsC7 (some "missing.txt")).isErr
      = true :=
  ⟨rfl, by decide, rfl, rfl, rfl⟩

/-- C8 counterexample indicator: raw rating 4.99. -/
def c8ind : _TcIndicator :=
  ⟨⟨7, 499 / 100, "w", [], "", 0⟩, ⟨1, "S"⟩, "dns", "example.com"⟩

/-- C8 (counterexample): for the raw rating `4.99 ∈ [0, 5]`, the indicator's
score is `int(4.99 * 20) = 99`, while the claimed `round(r * 20)` is `100`:
the code truncates, it does not round. -/
theorem C8_counterexample :
    c8ind.score = 99 ∧ round (c8ind.raw.threatAssessRating * 20) = 100 ∧
      (99 : ℤ) ≠ 100 := by
  refine ⟨?_, ?_, by decide⟩
  · show pyInt ((499 / 100 : ℚ) * 20) = 99
    rw [pyInt]
    norm_num [Int.floor_eq_iff]
  · show round ((499 / 100 : ℚ) * 20) = 100
    rw [round_eq]
    norm_num [Int.floor_eq_iff]

/-- C8 (amended): for every raw indicator rating `r ∈ [0, 5]`, the
indicator's score equals `⌊r * 20⌋` (truncation toward zero, which on the
non-negative range is the floor) and lies in `[0, 100]`. -/
theorem C8_score_truncation_amended (i : _TcIndicator)
    (h0 : 0 ≤ i.raw.threatAssessRating) (h5 : i.raw.threatAssessRating ≤ 5) :
    i.score = ⌊i.raw.threatAssessRating * 20⌋ ∧ 0 ≤ i.score ∧ i.score ≤ 100 := by
  have h20 : (0 : ℚ) ≤ i.raw.threatAssessRating * 20 :=
    mul_nonneg h0 (by norm_num)
  have hfl : i.score = ⌊i.raw.threatAssessRating * 20⌋ := by
    rw [_TcIndicator.score, pyInt, if_pos h20]
  refine ⟨hfl, ?_, ?_⟩
  · rw [hfl]
    exact Int.floor_nonneg.mpr h20
  · rw [hfl]
    have hle : i.raw.threatAssessRating * 20 ≤ 100 := by nlinarith
    calc ⌊i.raw.threatAssessRating * 20⌋ ≤ ⌊(100 : ℚ)⌋ := Int.floor_mono hle
      _ = 100 := by norm_num

/-- C8 witness: the amended statement at `c8ind` (rating 4.99). -/
theorem C8_score_truncation_amended_witness :
    0 ≤ c8ind.raw.threatAssessRating ∧ c8ind.raw.threatAssessRating ≤ 5 ∧
    (c8ind.score = ⌊c8ind.raw.threatAssessRating * 20⌋ ∧ 0 ≤ c8ind.score ∧
      c8ind.score ≤ 100) :=
  ⟨by norm_num [c8ind], by norm_num [c8ind],
    C8_score_truncation_amended c8ind (by norm_num [c8ind])
      (by norm_num [c8ind])⟩

/-- C9: the Condensed synthetic id.  For every source with numeric id `S`
and scores `k1, k2 ∈ [0, 100]`, the generated id is `(S << 8) | k` exactly
as coded, and two different scores for the same source never produce the
same id. -/
theorem C9_generate_id_injective (s : _TcSource) (k1 k2 : ℕ)
    (h1 : k1 ≤ 100) (h2 : k2 ≤ 100) (hne : k1 ≠ k2) :
    s.generate_id k1 = (s.id <<< 8) ||| k1 ∧
    s.generate_id k1 ≠ s.generate_id k2 := by
  refine ⟨rfl, fun hEq => hne ?_⟩
  have hb : ∀ i, k1.testBit i = k2.testBit i := by
    intro i
    have hcong := congrArg (fun n => Nat.testBit n i) hEq
    simp only [_TcSource.generate_id, Nat.testBit_lor, Nat.testBit_shiftLeft]
      at hcong
    by_cases hi : i < 8
    · have h8 : decide (8 ≤ i) = false := by
        simp only [decide_eq_false_iff_not]
        omega
      rw [h8] at hcong
      simpa using hcong
    · have hk1 : k1.testBit i = false := by
        apply Nat.testBit_lt_two_pow
        calc k1 < 2 ^ 8 := by omega
          _ ≤ 2 ^ i := Nat.pow_le_pow_right (by omega) (by omega)
      have hk2 : k2.testBit i = false := by
        apply Nat.testBit_lt_two_pow
        calc k2 < 2 ^ 8 := by omega
          _ ≤ 2 ^ i := Nat.pow_le_pow_right (by omega) (by omega)
      rw [hk1, hk2]
  exact Nat.eq_of_testBit_eq hb

/-- C9 witness: at source `srcA` (id 1) and scores 80 vs 90, the id is
`(1 << 8) | 80 = 336` and the two ids differ. -/
theorem C9_generate_id_injective_witness :
    (80 : ℕ) ≤ 100 ∧ (90 : ℕ) ≤ 100 ∧ (80 : ℕ) ≠ 90 ∧
    (srcA.generate_id 80 = (srcA.id <<< 8) ||| 80 ∧
      srcA.generate_id 80 ≠ srcA.generate_id 90) :=
  ⟨by decide, by decide, by decide,
    C9_generate_id_injective srcA 80 90 (by decide) (by decide) (by decide)⟩

/-- C10: for every Config construction in which `default_org` is left at its
Python default `None`, construction raises - whatever the other options are
(in particular even when `url`, `api_key` and `secret_key` are all valid):
either an earlier validation/read step raises, or line 248
(`default_org.strip()`) raises `AttributeError`.  `default_org` is
effectively a required option. -/
theorem C10_default_org_required (fs : String → Except String String)
    (sources : String) (url api_key secret_key f1 f2 f3 : Option String)
    (ms : ℤ) (types grp : Option String) (mr : ℕ) :
    (ThreatConnectConfig.init fs sources url api_key secret_key f1 f2 f3 ms
      types grp mr none).isErr = true := by
  unfold ThreatConnectConfig.init
  repeat' split <;> simp [Except.isErr]
  all_goals
    rename_i heq
    repeat' split at heq
    all_goals simp_all
